import Mathlib

/-!
Verification of the HTTP transport layer of the python-odata client
(`odata/connection.py`): a shallow embedding of the request-execution and
error-translation pipeline, together with theorems settling the spec's
claims about it.

Modelling conventions:
* Decoded JSON values are the inductive `JVal`; JSON numbers are modelled
  as integers (no claim inspects numeric values).
* A received HTTP response is modelled by its status code, its header list
  (as produced by the transport, keys already lower-cased, which is what
  the requests library's case-insensitive header dictionary guarantees),
  and the result of attempting to parse its body as JSON (`none` when the
  body does not parse, in which case `response.json()` raises).
* Each `execute_*` method is a function from the connection state and the
  transport's behaviour for this call to an `Outcome`, the observable
  result at the call boundary: a returned value, a raised error of one of
  the classes used by the code, or a raw Python exception escaping
  (JSON-decode, attribute or type error).  A single call yields exactly
  one `Outcome` by construction, mirroring Python's control flow in which
  a method either returns or raises.
* Operations of the requests/urllib3 libraries that the code relies on
  (`raise_for_status`, `codes.no_content`, `Session.mount`,
  `Session.get_adapter`, default adapters, `dict.update`) are embedded
  from their documented semantics.
-/

namespace PyOData

/-- Decoded JSON values, the result of `response.json()` / `json.loads`. -/
inductive JVal where
  | null : JVal
  | bool (b : Bool) : JVal
  | num (n : Int) : JVal
  | str (s : String) : JVal
  | arr (elems : List JVal) : JVal
  | obj (fields : List (String × JVal)) : JVal

/-- Python truthiness (`bool(x)`) of a decoded JSON value: `None`, `False`,
`0`, `""`, `[]` and `\x7b\x7d` are falsy, everything else truthy. -/
def pyTruthy : JVal → Bool
  | .null => false
  | .bool b => b
  | .num n => n != 0
  | .str s => s != ""
  | .arr xs => !xs.isEmpty
  | .obj fs => !fs.isEmpty

/-- The value a JSON value contributes when Python needs a `str` (for
`" | ".join`): `some` for actual strings, `none` for every other type,
where `str.join` raises `TypeError`. -/
def asPyStr : JVal → Option String
  | .str s => some s
  | _ => none

/-- Python substring test `pat in s`. -/
def strIn (pat s : String) : Bool :=
  decide (List.IsInfix pat.toList s.toList)

/-- Lookup in a decoded JSON object (Python `dict`): first binding of the
key.  `json.loads` never produces duplicate keys, so this is the binding. -/
def lookupJ (fs : List (String × JVal)) (key : String) : Option JVal :=
  (fs.find? (fun p => p.1 == key)).map (fun p => p.2)

/-- Python membership test `key in x` on a decoded JSON value: key lookup
for objects, element equality for arrays, substring test for strings, and
`TypeError` (modelled as `.error`) for the remaining types. -/
def pyIn (key : String) : JVal → Except Unit Bool
  | .obj fs => .ok (fs.any (fun p => p.1 == key))
  | .arr xs => .ok (xs.any (fun j => match j with | .str s => s == key | _ => false))
  | .str s => .ok (strIn key s)
  | _ => .error ()

/-- Python `x.get(key)` on a decoded JSON value: defined for objects
(`none` when the key is absent), `AttributeError` (modelled as `.error`)
for every other type. -/
def pyGet (x : JVal) (key : String) : Except Unit (Option JVal)
  := match x with
  | .obj fs => .ok (lookupJ fs key)
  | _ => .error ()

/-- Python subscription `x[key]` with a string key: defined for objects
(`KeyError` when absent), `TypeError` for every other type; both failure
modes are modelled as `.error`. -/
def pyGetItem (x : JVal) (key : String) : Except Unit JVal
  := match x with
  | .obj fs =>
    match lookupJ fs key with
    | some v => .ok v
    | none => .error ()
  | _ => .error ()

/-- Python `x or y` specialised to the handler's use `value or current`:
the left operand when truthy, otherwise the fallback. -/
def pyOr (v fallback : JVal) : JVal :=
  if pyTruthy v then v else fallback

/-- A received HTTP response as the code observes it through the requests
library: status code, headers (keys lower-cased by the transport), and the
outcome of parsing the body as JSON (`none`: `response.json()` raises). -/
structure Response where
  status_code : Nat
  headers : List (String × String)
  json : Option JVal

/-- `response.headers.get("content-type", "")`. -/
def responseCT (r : Response) : String :=
  ((r.headers.find? (fun p => p.1 == "content-type")).map (fun p => p.2)).getD ""

/-- `requests.codes.no_content`. -/
def no_content : Nat := 204

/-- The statuses on which `response.raise_for_status()` raises `HTTPError`:
client errors 4xx and server errors 5xx. -/
def isFailureStatus (c : Nat) : Prop := 400 ≤ c ∧ c < 600

instance (c : Nat) : Decidable (isFailureStatus c) := by
  unfold isFailureStatus; infer_instance

/-- The structured contents of the `ODataError` raised by
`_handle_odata_error`: the joined display string `msg` and the four
attributes set on the error object. -/
structure ODataErrorInfo where
  msg : String
  status_code : String
  code : String
  message : String
  detailed_message : String

/-- Result of `_handle_odata_error`: returns normally, raises the
structured `ODataError`, or lets a raw Python exception escape
(JSON-decode error from `response.json()`, `TypeError`/`AttributeError`
from the shape-dependent accesses, `TypeError` from `" | ".join`). -/
inductive HandleResult where
  | ok : HandleResult
  | protocol (e : ODataErrorInfo) : HandleResult
  | pyError : HandleResult

/-- `msg = " | ".join([status_code, code, message, detailed_message])`
followed by constructing and raising the `ODataError`; `join` raises
`TypeError` when a component is not a string. -/
def finishErr (status_code : String) (code message detailed_message : JVal) : HandleResult :=
  match asPyStr code, asPyStr message, asPyStr detailed_message with
  | some c, some m, some d =>
    .protocol
      { msg := String.intercalate " | " [status_code, c, m, d]
        status_code := status_code
        code := c
        message := m
        detailed_message := d }
  | _, _, _ => .pyError

/-- One `if key in odata_error: field = odata_error.get(key) or field`
step of the handler. -/
def extractIfPresent (odata_error : JVal) (key : String) (current : JVal) : Except Unit JVal :=
  match pyIn key odata_error with
  | .error _ => .error ()
  | .ok false => .ok current
  | .ok true =>
    match pyGet odata_error key with
    | .error _ => .error ()
    | .ok ov => .ok (pyOr (ov.getD .null) current)

/-- The handler's innererror step:
`if "innererror" in odata_error: ie = odata_error["innererror"];
detailed_message = ie.get("message") or detailed_message`. -/
def extractInner (odata_error : JVal) (current : JVal) : Except Unit JVal :=
  match pyIn "innererror" odata_error with
  | .error _ => .error ()
  | .ok false => .ok current
  | .ok true =>
    match pyGetItem odata_error "innererror" with
    | .error _ => .error ()
    | .ok ie =>
      match pyGet ie "message" with
      | .error _ => .error ()
      | .ok ov => .ok (pyOr (ov.getD .null) current)

/-- Body of the handler once `errordata` contains an `error` member,
extracting `code`, `message` and `innererror.message` in order. -/
def handleErrorObj (status_code : String) (odata_error : JVal) : HandleResult :=
  match extractIfPresent odata_error "code" (.str "None") with
  | .error _ => .pyError
  | .ok code =>
    match extractIfPresent odata_error "message"
        (.str "Server did not supply any error messages") with
    | .error _ => .pyError
    | .ok message =>
      match extractInner odata_error (.str "None") with
      | .error _ => .pyError
      | .ok detailed_message => finishErr status_code code message detailed_message

/-- The handler's treatment of a parsed JSON body `errordata`:
`if "error" in errordata: odata_error = errordata.get("error"); ...`. -/
def handleErrordata (status_code : String) (errordata : JVal) : HandleResult :=
  match pyIn "error" errordata with
  | .error _ => .pyError
  | .ok false =>
    finishErr status_code (.str "None")
      (.str "Server did not supply any error messages") (.str "None")
  | .ok true =>
    match pyGet errordata "error" with
    | .error _ => .pyError
    | .ok ov => handleErrorObj status_code (ov.getD .null)

/-- `ODataConnection._handle_odata_error(response)`: no-op on success
statuses; on failure statuses, builds the structured `ODataError` from the
JSON error body when the content-type claims JSON (parsing the body, which
may raise), and from the sentinel values otherwise. -/
def handle_odata_error (response : Response) : HandleResult :=
  if isFailureStatus response.status_code then
    let status_code := "HTTP " ++ toString response.status_code
    let response_ct := responseCT response
    if strIn "application/json" response_ct then
      match response.json with
      | none => .pyError
      | some errordata => handleErrordata status_code errordata
    else
      finishErr status_code (.str "None")
        (.str "Server did not supply any error messages") (.str "None")
  else .ok

/-- Python `dict` insertion `d[k] = v`: replace in place when the key
exists, append otherwise (dicts preserve insertion order). -/
def dictInsert {α : Type} (d : List (String × α)) (k : String) (v : α) :
    List (String × α) :=
  if d.any (fun p => p.1 == k) then
    d.map (fun p => if p.1 == k then (k, v) else p)
  else d ++ [(k, v)]

/-- Python `d.update(other)`: insert every binding of `other` into `d` in
order; `other` itself is left untouched. -/
def dictUpdate {α : Type} (d other : List (String × α)) : List (String × α) :=
  other.foldl (fun acc p => dictInsert acc p.1 p.2) d

/-- A `urllib3.util.Retry` configuration as the code constructs it:
`total`, `status_forcelist`, `backoff_factor`. -/
structure Retry where
  total : Nat
  status_forcelist : List Nat
  backoff_factor : Nat

/-- The retry configuration of a default `requests.adapters.HTTPAdapter()`:
`max_retries = Retry(0, read=False)` — no retries, no forced statuses, no
backoff. -/
def defaultRetry : Retry :=
  { total := 0, status_forcelist := [], backoff_factor := 0 }

/-- The `Retry` the code builds in `__init__`:
`Retry(total=5, status_forcelist=[429, 500, 502, 503, 504], backoff_factor=2)`. -/
def odataRetry : Retry :=
  { total := 5, status_forcelist := [429, 500, 502, 503, 504], backoff_factor := 2 }

/-- A `requests.Session`, reduced to what the code observes: the ordered
mapping from mount prefixes to the retry configuration of the mounted
adapter. -/
structure Session where
  adapters : List (String × Retry)

/-- `Session.mount(prefix, adapter)`: store the adapter under the prefix,
then move every strictly shorter prefix behind it, so that lookups match
the longest prefix first (this is requests' implementation). -/
def Session.mount (s : Session) (pre : String) (a : Retry) : Session :=
  let ads := dictInsert s.adapters pre a
  { adapters :=
      ads.filter (fun p => !(p.1.length < pre.length)) ++
      ads.filter (fun p => p.1.length < pre.length) }

/-- Python `str.lower()` over the characters of a string. -/
def lowerChars (l : List Char) : List Char :=
  l.map Char.toLower

/-- `Session.get_adapter(url)`: the first mounted adapter whose prefix the
lower-cased URL starts with; `none` models the `InvalidSchema` raise when
no prefix matches. -/
def Session.get_adapter (s : Session) (url : String) : Option Retry :=
  (s.adapters.find?
    (fun p => decide (List.IsPrefix (lowerChars p.1.toList) (lowerChars url.toList)))).map
    (fun p => p.2)

/-- `requests.Session()`: its constructor mounts a default adapter for
`https://` and then one for `http://`. -/
def requestsDefaultSession : Session :=
  (Session.mount (Session.mount { adapters := [] } "https://" defaultRetry)
    "http://" defaultRetry)

/-- `ODataConnection.base_headers`, a class attribute; the `User-Agent`
value interpolates the package's `version` string, which is a parameter
here. -/
def ODataConnection.base_headers (version : String) : List (String × String) :=
  [("Accept", "application/json"),
   ("OData-Version", "4.0"),
   ("User-Agent", "python-odata " ++ version)]

/-- The connection state: the session, the optional credential, and the
base header set the instance sees (the class attribute). -/
structure Conn where
  session : Session
  auth : Option String
  base_headers : List (String × String)

/-- `ODataConnection.__init__(session=None, auth=None)`: with no session
supplied, create a fresh `requests.Session` and mount the retry adapter at
`https://`; otherwise adopt the supplied session unchanged. -/
def ODataConnection.init (session : Option Session) (auth : Option String)
    (version : String) : Conn :=
  match session with
  | none =>
    { session := Session.mount requestsDefaultSession "https://" odataRetry
      auth := auth
      base_headers := ODataConnection.base_headers version }
  | some s =>
    { session := s
      auth := auth
      base_headers := ODataConnection.base_headers version }

/-- Headers sent by `execute_get`: `headers = \x7b\x7d; headers.update(self.base_headers)`. -/
def execute_get_headers (conn : Conn) : List (String × String) :=
  dictUpdate [] conn.base_headers

/-- Headers sent by `execute_post`:
`headers = \x7b"Content-Type": "application/json"\x7d; headers.update(self.base_headers)`. -/
def execute_post_headers (conn : Conn) : List (String × String) :=
  dictUpdate [("Content-Type", "application/json")] conn.base_headers

/-- Headers sent by `execute_patch` (same literal as `execute_post`). -/
def execute_patch_headers (conn : Conn) : List (String × String) :=
  dictUpdate [("Content-Type", "application/json")] conn.base_headers

/-- Headers sent by `execute_delete` (same literal as `execute_get`). -/
def execute_delete_headers (conn : Conn) : List (String × String) :=
  dictUpdate [] conn.base_headers

/-- What `self.session.request(...)` does on this particular call: either
an HTTP response is obtained, or the transport raises a
`requests.exceptions.RequestException` whose `str` is `msg` (connection
failure, DNS failure, TLS failure, timeout are all subclasses). -/
inductive TransportResult where
  | ok (r : Response) : TransportResult
  | exn (msg : String) : TransportResult

/-- The Python exception classes observable at the call boundary.
Modelled from the spec: the module `odata/exceptions.py` defining the
classes is not in the sources; the spec's taxonomy names the structured
protocol failure (the code's `ODataError` raised by
`_handle_odata_error`) ProtocolError and the wrapped transport failure
(the code's `ODataConnectionError`) TransportError.  `rawPython` stands
for any exception of neither class escaping undeclared (JSON-decode,
attribute or type errors). -/
inductive PyExcClass where
  | odataError : PyExcClass
  | odataConnectionError : PyExcClass
  | rawPython : PyExcClass
deriving DecidableEq

/-- The observable outcome of one `execute_*` call: exactly one of a
returned value (`none` models Python's implicit `return None`), a raised
`ODataError` carrying the structured protocol fields, a raised plain
`ODataError` for an unsupported content type, a raised
`ODataConnectionError`, or a raw Python exception escaping. -/
inductive Outcome where
  | returns (v : Option JVal) : Outcome
  | raisesProtocol (e : ODataErrorInfo) : Outcome
  | raisesContentType (msg : String) : Outcome
  | raisesConnection (msg : String) : Outcome
  | pyError : Outcome

/-- The Python class of the exception an outcome raises, `none` when the
call returns.  Both `raisesProtocol` and `raisesContentType` construct the
same class `ODataError` in the code. -/
def Outcome.excClass : Outcome → Option PyExcClass
  | .returns _ => none
  | .raisesProtocol _ => some .odataError
  | .raisesContentType _ => some .odataError
  | .raisesConnection _ => some .odataConnectionError
  | .pyError => some .rawPython

/-- `ODataConnection.execute_get(url, params=None)` from the dispatch on:
the decorated `_do` either yields a response or re-raises the transport
exception as `ODataConnectionError(str(e))`; then `_handle_odata_error`,
the no-content check, JSON decoding, or the unsupported-content-type
raise.  The connection state is returned alongside: the method never
mutates it. -/
def execute_get (conn : Conn) (t : TransportResult) : Outcome × Conn :=
  match t with
  | .exn m => (.raisesConnection m, conn)
  | .ok response =>
    match handle_odata_error response with
    | .protocol e => (.raisesProtocol e, conn)
    | .pyError => (.pyError, conn)
    | .ok =>
      let response_ct := responseCT response
      if response.status_code == no_content then (.returns none, conn)
      else if strIn "application/json" response_ct then
        match response.json with
        | some data => (.returns (some data), conn)
        | none => (.pyError, conn)
      else
        (.raisesContentType ("Unsupported response Content-Type: " ++ response_ct),
         conn)

/-- `ODataConnection.execute_post(url, data, params=None)` from the
dispatch on: like `execute_get`, except that a successful response with a
non-JSON content-type falls through and returns `None` (the method ends
with no raise: POSTing to Actions may not return data). -/
def execute_post (conn : Conn) (t : TransportResult) : Outcome × Conn :=
  match t with
  | .exn m => (.raisesConnection m, conn)
  | .ok response =>
    match handle_odata_error response with
    | .protocol e => (.raisesProtocol e, conn)
    | .pyError => (.pyError, conn)
    | .ok =>
      let response_ct := responseCT response
      if response.status_code == no_content then (.returns none, conn)
      else if strIn "application/json" response_ct then
        match response.json with
        | some data => (.returns (some data), conn)
        | none => (.pyError, conn)
      else (.returns none, conn)

/-- `ODataConnection.execute_patch(url, data)` from the dispatch on: after
`_handle_odata_error` the method ends, returning `None` without looking at
the body. -/
def execute_patch (conn : Conn) (t : TransportResult) : Outcome × Conn :=
  match t with
  | .exn m => (.raisesConnection m, conn)
  | .ok response =>
    match handle_odata_error response with
    | .protocol e => (.raisesProtocol e, conn)
    | .pyError => (.pyError, conn)
    | .ok => (.returns none, conn)

/-- `ODataConnection.execute_delete(url)` from the dispatch on: after
`_handle_odata_error` the method ends, returning `None` without looking at
the body. -/
def execute_delete (conn : Conn) (t : TransportResult) : Outcome × Conn :=
  match t with
  | .exn m => (.raisesConnection m, conn)
  | .ok response =>
    match handle_odata_error response with
    | .protocol e => (.raisesProtocol e, conn)
    | .pyError => (.pyError, conn)
    | .ok => (.returns none, conn)

/-- The `innererror` object of the standard OData error shape. -/
def innerObj (im : String) : JVal :=
  .obj [("message", .str im)]

/-- The fields of the `error` object of the standard OData error body,
with each of `code`, `message` and `innererror.message` present or absent
according to the option. -/
def errFields (oc om oim : Option String) : List (String × JVal) :=
  (match oc with | none => [] | some c => [("code", .str c)]) ++
  (match om with | none => [] | some m => [("message", .str m)]) ++
  (match oim with | none => [] | some im => [("innererror", innerObj im)])

/-- The standard OData error body built from optional field values. -/
def errBody (oc om oim : Option String) : JVal :=
  .obj [("error", .obj (errFields oc om oim))]

/-- The value an optional field contributes after the handler's
`value or sentinel` fallback: the sentinel when the field is absent or the
empty string, the field value otherwise. -/
def orSentinel : Option String → String → String
  | none, d => d
  | some c, d => if c = "" then d else c

/-- A field value of the `error` object that the handler can process
without a `TypeError` from `" | ".join`: either falsy (so the sentinel is
kept) or an actual string. -/
def okField (v : JVal) : Bool :=
  !pyTruthy v || (asPyStr v).isSome

/-- An `innererror` value the handler can process: an object whose
`message` member, when present, is `okField`. -/
def okInner : JVal → Bool
  | .obj fs =>
    match lookupJ fs "message" with
    | none => true
    | some w => okField w
  | _ => false

/-- An `error` value the handler can process without raising a raw Python
exception: an object whose `code` and `message` members, when present, are
`okField`, and whose `innererror` member, when present, is `okInner`. -/
def okErrVal : JVal → Bool
  | .obj fs =>
    (match lookupJ fs "code" with | none => true | some w => okField w) &&
    (match lookupJ fs "message" with | none => true | some w => okField w) &&
    (match lookupJ fs "innererror" with | none => true | some w => okInner w)
  | _ => false

/-- A parsed failure body the handler can process: an object whose `error`
member, when present, is `okErrVal`; or a value on which the `in` test
succeeds and returns false, so the sentinels are kept. -/
def okErrordata : JVal → Bool
  | .obj fs =>
    match lookupJ fs "error" with
    | none => true
    | some v => okErrVal v
  | .arr xs => !(xs.any (fun j => match j with | .str s => s == "error" | _ => false))
  | .str s => !(strIn "error" s)
  | _ => false

/-- A response the pipeline can process without a raw Python exception
escaping: whenever the content-type claims JSON the body must parse, and
on failure statuses the parsed body must be `okErrordata`. -/
def safeResponse (r : Response) : Bool :=
  if strIn "application/json" (responseCT r) then
    match r.json with
    | none => false
    | some d => if isFailureStatus r.status_code then okErrordata d else true
  else true

/-- The outcomes the spec's invariant allows: decoded JSON is returned,
nothing is returned, or exactly one of the three declared error kinds is
raised (the structured protocol `ODataError`, the unsupported-content-type
`ODataError`, or the transport-wrapping `ODataConnectionError`).  A raw
Python exception escaping satisfies none of the disjuncts. -/
def claimedOutcome (o : Outcome) : Prop :=
  (∃ d, o = .returns (some d)) ∨ o = .returns none ∨
  (∃ e, o = .raisesProtocol e) ∨ (∃ m, o = .raisesContentType m) ∨
  (∃ m, o = .raisesConnection m)

/-- A connection built the default way, used for concrete instances. -/
def conn0 : Conn :=
  ODataConnection.init none none "1.0"

/-- The structured error contents when all three fields keep their
sentinel values. -/
def sentinelInfo (st : String) : ODataErrorInfo :=
  { msg := st ++ " | " ++ "None" ++ " | " ++ "Server did not supply any error messages"
      ++ " | " ++ "None"
    status_code := st
    code := "None"
    message := "Server did not supply any error messages"
    detailed_message := "None" }

/- General helper lemmas. -/

theorem intercalate_sep4 (sep a b c d : String) :
    String.intercalate sep [a, b, c, d] = a ++ sep ++ b ++ sep ++ c ++ sep ++ d := rfl

theorem finishErr_str (st a b c : String) :
    finishErr st (.str a) (.str b) (.str c) =
      .protocol
        { msg := st ++ " | " ++ a ++ " | " ++ b ++ " | " ++ c
          status_code := st, code := a, message := b, detailed_message := c } := rfl

theorem lookupJ_none_any (fs : List (String × JVal)) (k : String)
    (h : lookupJ fs k = none) : fs.any (fun p => p.1 == k) = false := by
  simp only [lookupJ, Option.map_eq_none'] at h
  rw [List.find?_eq_none] at h
  simp only [List.any_eq_false]
  intro p hp
  exact h p hp

theorem lookupJ_some_any (fs : List (String × JVal)) (k : String) (v : JVal)
    (h : lookupJ fs k = some v) : fs.any (fun p => p.1 == k) = true := by
  simp only [lookupJ, Option.map_eq_some'] at h
  obtain ⟨q, hq, _⟩ := h
  have hmem : q ∈ fs := List.mem_of_find?_eq_some hq
  have hpq := List.find?_some hq
  exact List.any_eq_true.mpr ⟨q, hmem, hpq⟩

theorem okField_truthy {w : JVal} (h1 : okField w = true) (h2 : pyTruthy w = true) :
    ∃ s, w = .str s := by
  cases w <;> simp_all [okField, asPyStr, pyTruthy]

theorem execute_get_snd (conn : Conn) (t : TransportResult) :
    (execute_get conn t).2 = conn := by
  cases t with
  | exn m => rfl
  | ok r =>
    simp only [execute_get]
    cases handle_odata_error r with
    | protocol e => rfl
    | pyError => rfl
    | ok =>
      dsimp only
      split
      · rfl
      · split
        · cases r.json <;> rfl
        · rfl

theorem execute_post_snd (conn : Conn) (t : TransportResult) :
    (execute_post conn t).2 = conn := by
  cases t with
  | exn m => rfl
  | ok r =>
    simp only [execute_post]
    cases handle_odata_error r with
    | protocol e => rfl
    | pyError => rfl
    | ok =>
      dsimp only
      split
      · rfl
      · split
        · cases r.json <;> rfl
        · rfl

theorem execute_patch_snd (conn : Conn) (t : TransportResult) :
    (execute_patch conn t).2 = conn := by
  cases t with
  | exn m => rfl
  | ok r =>
    simp only [execute_patch]
    cases handle_odata_error r <;> rfl

theorem execute_delete_snd (conn : Conn) (t : TransportResult) :
    (execute_delete conn t).2 = conn := by
  cases t with
  | exn m => rfl
  | ok r =>
    simp only [execute_delete]
    cases handle_odata_error r <;> rfl

theorem extractIfPresent_str (fs : List (String × JVal)) (k cur : String)
    (hok : ∀ w, lookupJ fs k = some w → okField w = true) :
    ∃ out, extractIfPresent (.obj fs) k (.str cur) = .ok (.str out) := by
  cases hl : lookupJ fs k with
  | none =>
    exact ⟨cur, by simp [extractIfPresent, pyIn, lookupJ_none_any fs k hl]⟩
  | some w =>
    have hany := lookupJ_some_any fs k w hl
    have hw := hok w hl
    by_cases ht : pyTruthy w = true
    · obtain ⟨s, rfl⟩ := okField_truthy hw ht
      exact ⟨s, by simp [extractIfPresent, pyIn, hany, pyGet, hl, pyOr, ht]⟩
    · have ht2 : pyTruthy w = false := by simpa using ht
      exact ⟨cur, by simp [extractIfPresent, pyIn, hany, pyGet, hl, pyOr, ht2]⟩

theorem extractInner_str (fs : List (String × JVal)) (cur : String)
    (hok : ∀ w, lookupJ fs "innererror" = some w → okInner w = true) :
    ∃ out, extractInner (.obj fs) (.str cur) = .ok (.str out) := by
  cases hl : lookupJ fs "innererror" with
  | none =>
    exact ⟨cur, by simp [extractInner, pyIn, lookupJ_none_any fs "innererror" hl]⟩
  | some w =>
    have hany := lookupJ_some_any fs "innererror" w hl
    have hw := hok w hl
    cases w with
    | obj gs =>
      cases hm : lookupJ gs "message" with
      | none =>
        exact ⟨cur,
          by simp [extractInner, pyIn, hany, pyGetItem, hl, hm, pyGet, pyOr, pyTruthy]⟩
      | some u =>
        have hu : okField u = true := by simpa [okInner, hm] using hw
        by_cases ht : pyTruthy u = true
        · obtain ⟨s, rfl⟩ := okField_truthy hu ht
          exact ⟨s, by simp [extractInner, pyIn, hany, pyGetItem, hl, hm, pyGet, pyOr, ht]⟩
        · have ht2 : pyTruthy u = false := by simpa using ht
          exact ⟨cur,
            by simp [extractInner, pyIn, hany, pyGetItem, hl, hm, pyGet, pyOr, ht2]⟩
    | null => simp [okInner] at hw
    | bool b => simp [okInner] at hw
    | num n => simp [okInner] at hw
    | str s => simp [okInner] at hw
    | arr xs => simp [okInner] at hw

theorem handleErrorObj_protocol (st : String) (v : JVal) (hok : okErrVal v = true) :
    ∃ e, handleErrorObj st v = .protocol e := by
  cases v with
  | obj fs =>
    simp only [okErrVal, Bool.and_eq_true] at hok
    obtain ⟨⟨h1, h2⟩, h3⟩ := hok
    obtain ⟨a, ha⟩ := extractIfPresent_str fs "code" "None"
      (fun w hw => by rw [hw] at h1; exact h1)
    obtain ⟨b, hb⟩ := extractIfPresent_str fs "message"
      "Server did not supply any error messages"
      (fun w hw => by rw [hw] at h2; exact h2)
    obtain ⟨c, hc⟩ := extractInner_str fs "None"
      (fun w hw => by rw [hw] at h3; exact h3)
    refine ⟨{ msg := st ++ " | " ++ a ++ " | " ++ b ++ " | " ++ c
              status_code := st, code := a, message := b, detailed_message := c }, ?_⟩
    simp only [handleErrorObj, ha, hb, hc]
    exact finishErr_str st a b c
  | null => simp [okErrVal] at hok
  | bool b => simp [okErrVal] at hok
  | num n => simp [okErrVal] at hok
  | str s => simp [okErrVal] at hok
  | arr xs => simp [okErrVal] at hok

theorem handleErrordata_protocol (st : String) (d : JVal)
    (hok : okErrordata d = true) : ∃ e, handleErrordata st d = .protocol e := by
  cases d with
  | obj fs =>
    cases hl : lookupJ fs "error" with
    | none =>
      exact ⟨sentinelInfo st, by simp only [handleErrordata, pyIn,
        lookupJ_none_any fs "error" hl, finishErr_str]; rfl⟩
    | some v =>
      have hany := lookupJ_some_any fs "error" v hl
      have hv : okErrVal v = true := by simpa [okErrordata, hl] using hok
      obtain ⟨e, he⟩ := handleErrorObj_protocol st v hv
      exact ⟨e, by simp [handleErrordata, pyIn, hany, pyGet, hl, he]⟩
  | arr xs =>
    have hx : (xs.any (fun j => match j with | .str s => s == "error" | _ => false))
        = false := by simpa [okErrordata] using hok
    exact ⟨sentinelInfo st,
      by simp only [handleErrordata, pyIn, hx, finishErr_str]; rfl⟩
  | str s =>
    have hx : strIn "error" s = false := by simpa [okErrordata] using hok
    exact ⟨sentinelInfo st,
      by simp only [handleErrordata, pyIn, hx, finishErr_str]; rfl⟩
  | null => simp [okErrordata] at hok
  | bool b => simp [okErrordata] at hok
  | num n => simp [okErrordata] at hok

theorem handle_ok (r : Response) (hf : ¬ isFailureStatus r.status_code) :
    handle_odata_error r = .ok := by
  simp [handle_odata_error, hf]

theorem handle_protocol (r : Response) (hf : isFailureStatus r.status_code)
    (hsafe : safeResponse r = true) :
    ∃ e, handle_odata_error r = .protocol e := by
  by_cases hct : strIn "application/json" (responseCT r) = true
  · have hj : ∃ d, r.json = some d ∧ okErrordata d = true := by
      simp only [safeResponse, hct, if_true] at hsafe
      cases hjj : r.json with
      | none => rw [hjj] at hsafe; simp at hsafe
      | some d =>
        rw [hjj] at hsafe
        exact ⟨d, rfl, by simpa [hf] using hsafe⟩
    obtain ⟨d, hjd, hod⟩ := hj
    obtain ⟨e, he⟩ := handleErrordata_protocol ("HTTP " ++ toString r.status_code) d hod
    exact ⟨e, by simp [handle_odata_error, hf, hct, hjd, he]⟩
  · have hcf : strIn "application/json" (responseCT r) = false := by simpa using hct
    exact ⟨sentinelInfo ("HTTP " ++ toString r.status_code),
      by simp only [handle_odata_error, if_pos hf, hcf,
        Bool.false_eq_true, if_false, finishErr_str]; rfl⟩

/-- The structured error contents the handler produces for a standard
OData error body: each field is the supplied value unless absent or empty,
in which case it is the fixed sentinel; the display string joins the
status line and the three fields with the literal separator. -/
def errInfo (st : String) (oc om oim : Option String) : ODataErrorInfo :=
  { msg := st ++ " | " ++ orSentinel oc "None" ++ " | " ++
      orSentinel om "Server did not supply any error messages" ++ " | " ++
      orSentinel oim "None"
    status_code := st
    code := orSentinel oc "None"
    message := orSentinel om "Server did not supply any error messages"
    detailed_message := orSentinel oim "None" }

theorem extract_code (oc om oim : Option String) :
    extractIfPresent (.obj (errFields oc om oim)) "code" (.str "None") =
      .ok (.str (orSentinel oc "None")) := by
  rcases oc with _ | c
  · rcases om with _ | m <;> rcases oim with _ | im <;>
      simp [extractIfPresent, pyIn, errFields, innerObj, orSentinel]
  · rcases om with _ | m <;> rcases oim with _ | im <;>
      by_cases hc : c = "" <;>
      simp [extractIfPresent, pyIn, errFields, innerObj, pyGet, lookupJ,
        pyOr, pyTruthy, orSentinel, hc]

theorem extract_message (oc om oim : Option String) :
    extractIfPresent (.obj (errFields oc om oim)) "message"
      (.str "Server did not supply any error messages") =
      .ok (.str (orSentinel om "Server did not supply any error messages")) := by
  rcases om with _ | m
  · rcases oc with _ | c <;> rcases oim with _ | im <;>
      simp [extractIfPresent, pyIn, errFields, innerObj, orSentinel]
  · rcases oc with _ | c <;> rcases oim with _ | im <;>
      by_cases hm : m = "" <;>
      simp [extractIfPresent, pyIn, errFields, innerObj, pyGet, lookupJ,
        pyOr, pyTruthy, orSentinel, hm]

theorem extract_inner (oc om oim : Option String) :
    extractInner (.obj (errFields oc om oim)) (.str "None") =
      .ok (.str (orSentinel oim "None")) := by
  rcases oim with _ | im
  · rcases oc with _ | c <;> rcases om with _ | m <;>
      simp [extractInner, pyIn, errFields, innerObj, orSentinel]
  · rcases oc with _ | c <;> rcases om with _ | m <;>
      by_cases hi : im = "" <;>
      simp [extractInner, pyIn, pyGetItem, errFields, innerObj, pyGet, lookupJ,
        pyOr, pyTruthy, orSentinel, hi]

theorem handleErrorObj_errFields (st : String) (oc om oim : Option String) :
    handleErrorObj st (.obj (errFields oc om oim)) = .protocol (errInfo st oc om oim) := by
  simp only [handleErrorObj, extract_code oc om oim, extract_message oc om oim,
    extract_inner oc om oim]
  rw [finishErr_str]
  rfl

theorem handleErrordata_errBody (st : String) (oc om oim : Option String) :
    handleErrordata st (errBody oc om oim) = .protocol (errInfo st oc om oim) := by
  simp [errBody, handleErrordata, pyIn, pyGet, lookupJ,
    handleErrorObj_errFields st oc om oim]

/- Concrete responses used in witnesses and counterexamples. -/

/-- A successful response with an HTML content-type. -/
def htmlResp : Response :=
  { status_code := 200, headers := [("content-type", "text/html")], json := none }

/-- A successful response with an XML content-type. -/
def xmlResp : Response :=
  { status_code := 200, headers := [("content-type", "text/xml")], json := none }

/-- A successful response with a plain-text content-type and a body that
does not parse as JSON. -/
def plainTextResp : Response :=
  { status_code := 200, headers := [("content-type", "text/plain")], json := none }

/-- A failure response carrying no content-type header at all. -/
def bareFailResp : Response :=
  { status_code := 400, headers := [], json := none }

/-- The spec's scenario body `(value : [(id : 1)])`. -/
def okJsonBody : JVal :=
  .obj [("value", .arr [.obj [("id", .num 1)]])]

/-- The spec's scenario response: 200, `application/json`, parsed body. -/
def okJsonResp : Response :=
  { status_code := 200, headers := [("content-type", "application/json")],
    json := some okJsonBody }

/-- A failure response whose content-type claims JSON but whose body does
not parse as JSON. -/
def badJsonFailResp : Response :=
  { status_code := 400, headers := [("content-type", "application/json")],
    json := none }

/-- A 503 failure whose content-type claims JSON (with a charset suffix)
but whose body does not parse as JSON. -/
def badJson503Resp : Response :=
  { status_code := 503,
    headers := [("content-type", "application/json; charset=utf-8")],
    json := none }

/-- The spec's POST scenario response: 500, `application/json`, body
`(error : (code : E1, message : bad))`. -/
def errScenarioResp : Response :=
  { status_code := 500, headers := [("content-type", "application/json")],
    json := some (errBody (some "E1") (some "bad") none) }

/- Claim theorems. -/

/-- Claim C4: every transport exception raised during dispatch is caught at
the dispatch boundary and re-raised as an `ODataConnectionError` (the
spec's TransportError) carrying the original exception's message, for all
four verbs; the raised class is `ODataConnectionError`, which is not the
`ODataError` class of protocol errors, so a ProtocolError is never raised
for a transport failure and no other exception type escapes this layer. -/
theorem claim_c4 (conn : Conn) (m : String) :
    (execute_get conn (.exn m)).1 = .raisesConnection m ∧
    (execute_post conn (.exn m)).1 = .raisesConnection m ∧
    (execute_patch conn (.exn m)).1 = .raisesConnection m ∧
    (execute_delete conn (.exn m)).1 = .raisesConnection m ∧
    (Outcome.raisesConnection m).excClass = some PyExcClass.odataConnectionError ∧
    (Outcome.raisesConnection m).excClass ≠ some PyExcClass.odataError ∧
    ∀ e, Outcome.raisesConnection m ≠ Outcome.raisesProtocol e :=
  ⟨rfl, rfl, rfl, rfl, rfl, by simp [Outcome.excClass], fun e h => by cases h⟩

/-- Claim C8: constructed without a session, the client creates one whose
adapter map mounts, at `https://`, a retry adapter with total = 5,
retryable statuses 429/500/502/503/504 and backoff factor 2 (next to the
default no-retry adapter at `http://`); constructed with a session, that
session is used unchanged and no adapter is mounted; and no `execute_*`
call modifies the connection state, so the retry configuration never
changes after construction. -/
theorem claim_c8 (auth : Option String) (v : String) (s : Session)
    (conn : Conn) (t : TransportResult) :
    (ODataConnection.init none auth v).session.adapters =
      [("https://",
        { total := 5, status_forcelist := [429, 500, 502, 503, 504],
          backoff_factor := 2 }),
       ("http://", { total := 0, status_forcelist := [], backoff_factor := 0 })] ∧
    (ODataConnection.init (some s) auth v).session = s ∧
    (execute_get conn t).2 = conn ∧
    (execute_post conn t).2 = conn ∧
    (execute_patch conn t).2 = conn ∧
    (execute_delete conn t).2 = conn :=
  ⟨rfl, rfl, execute_get_snd conn t, execute_post_snd conn t,
   execute_patch_snd conn t, execute_delete_snd conn t⟩

/-- Claim C9: every request carries the fixed base headers (`Accept:
application/json`, the `OData-Version` marker, the identifying
`User-Agent`); POST and PATCH additionally carry `Content-Type:
application/json`; the headers are assembled as a fresh per-call copy of
the base set, and the base header set of the connection is identical
before and after every call. -/
theorem claim_c9 (so : Option Session) (auth : Option String) (v : String)
    (t : TransportResult) :
    execute_get_headers (ODataConnection.init so auth v) =
      ODataConnection.base_headers v ∧
    execute_delete_headers (ODataConnection.init so auth v) =
      ODataConnection.base_headers v ∧
    execute_post_headers (ODataConnection.init so auth v) =
      ("Content-Type", "application/json") :: ODataConnection.base_headers v ∧
    execute_patch_headers (ODataConnection.init so auth v) =
      ("Content-Type", "application/json") :: ODataConnection.base_headers v ∧
    ODataConnection.base_headers v =
      [("Accept", "application/json"), ("OData-Version", "4.0"),
       ("User-Agent", "python-odata " ++ v)] ∧
    (execute_get (ODataConnection.init so auth v) t).2.base_headers =
      (ODataConnection.init so auth v).base_headers ∧
    (execute_post (ODataConnection.init so auth v) t).2.base_headers =
      (ODataConnection.init so auth v).base_headers ∧
    (execute_patch (ODataConnection.init so auth v) t).2.base_headers =
      (ODataConnection.init so auth v).base_headers ∧
    (execute_delete (ODataConnection.init so auth v) t).2.base_headers =
      (ODataConnection.init so auth v).base_headers := by
  refine ⟨?_, ?_, ?_, ?_, rfl, ?_, ?_, ?_, ?_⟩
  · cases so <;> rfl
  · cases so <;> rfl
  · cases so <;> rfl
  · cases so <;> rfl
  · rw [execute_get_snd]
  · rw [execute_post_snd]
  · rw [execute_patch_snd]
  · rw [execute_delete_snd]

/-- Claim C10: in the self-created session the retry adapter is mounted
only for the `https://` scheme, so a URL using plain `http://` is served
by the default adapter, whose retry configuration is zero total retries
(one transport-level attempt), no retryable statuses and no backoff — the
configured 5-attempt policy does not apply. -/
theorem claim_c10 (auth : Option String) (v : String) (url : String)
    (h1 : List.IsPrefix "http://".toList (lowerChars url.toList))
    (h2 : ¬ List.IsPrefix "https://".toList (lowerChars url.toList)) :
    (ODataConnection.init none auth v).session.get_adapter url = some defaultRetry ∧
    defaultRetry = { total := 0, status_forcelist := [], backoff_factor := 0 } := by
  refine ⟨?_, rfl⟩
  have hads : (ODataConnection.init none auth v).session =
      { adapters := [("https://", odataRetry), ("http://", defaultRetry)] } := rfl
  rw [hads]
  have e1 : lowerChars ("https://").toList = "https://".toList := by decide
  have e2 : lowerChars ("http://").toList = "http://".toList := by decide
  have hp1 : decide (List.IsPrefix (lowerChars ("https://").toList)
      (lowerChars url.toList)) = false := by
    rw [e1]; exact decide_eq_false h2
  have hp2 : decide (List.IsPrefix (lowerChars ("http://").toList)
      (lowerChars url.toList)) = true := by
    rw [e2]; exact decide_eq_true h1
  simp only [Session.get_adapter, List.find?, hp1, hp2, Option.map_some']

/-- Claim C10 witness: a concrete plain-http URL is matched by the default
adapter, not the retry adapter. -/
theorem claim_c10_witness :
    List.IsPrefix "http://".toList (lowerChars ("http://example.com").toList) ∧
    ¬ List.IsPrefix "https://".toList (lowerChars ("http://example.com").toList) ∧
    (ODataConnection.init none none "1.0").session.get_adapter "http://example.com"
      = some defaultRetry :=
  ⟨by decide, by decide,
   (claim_c10 none "1.0" "http://example.com" (by decide) (by decide)).1⟩

/-- Claim C2: a failure-status response whose content-type contains
`application/json` and whose body is the standard OData error object (each
of `code`, `message` and `innererror.message` present or absent) raises
the structured `ODataError` whose fields are the supplied values, any
absent or empty field replaced by its fixed sentinel, whose status line is
exactly `HTTP <code>`, and whose display string joins the status line and
the three fields with the literal separator `" | "` (see `errInfo`). -/
theorem claim_c2 (conn : Conn) (r : Response) (oc om oim : Option String)
    (hf : isFailureStatus r.status_code)
    (hct : strIn "application/json" (responseCT r) = true)
    (hj : r.json = some (errBody oc om oim)) :
    handle_odata_error r =
      .protocol (errInfo ("HTTP " ++ toString r.status_code) oc om oim) ∧
    (execute_get conn (.ok r)).1 =
      .raisesProtocol (errInfo ("HTTP " ++ toString r.status_code) oc om oim) := by
  have hmain : handle_odata_error r =
      .protocol (errInfo ("HTTP " ++ toString r.status_code) oc om oim) := by
    rw [handle_odata_error, if_pos hf]
    simp only [hct, if_true, hj]
    exact handleErrordata_errBody ("HTTP " ++ toString r.status_code) oc om oim
  exact ⟨hmain, by simp [execute_get, hmain]⟩

/-- Claim C2 witness: the spec's POST scenario — status 500, body
`(error : (code : E1, message : bad))` — yields code `E1`, message `bad`,
detailed message `None` and display string `HTTP 500 | E1 | bad | None`. -/
theorem claim_c2_witness :
    isFailureStatus errScenarioResp.status_code ∧
    strIn "application/json" (responseCT errScenarioResp) = true ∧
    errScenarioResp.json = some (errBody (some "E1") (some "bad") none) ∧
    handle_odata_error errScenarioResp =
      .protocol (errInfo ("HTTP " ++ toString errScenarioResp.status_code)
        (some "E1") (some "bad") none) ∧
    (errInfo ("HTTP " ++ toString errScenarioResp.status_code)
      (some "E1") (some "bad") none).msg = "HTTP 500 | E1 | bad | None" :=
  ⟨by decide, by rfl, rfl,
   (claim_c2 conn0 errScenarioResp (some "E1") (some "bad") none
     (by decide) (by rfl) rfl).1,
   by rfl⟩

/-- Claim C3 counterexample: the claim also covers a failure response
whose content-type contains `application/json` but whose body does not
parse as JSON; there the code calls `response.json()`, which raises a raw
JSON-decode error — not the sentinel-filled `ODataError` the claim
requires. -/
theorem claim_c3_counterexample :
    handle_odata_error badJson503Resp = .pyError ∧
    (execute_get conn0 (.ok badJson503Resp)).1 = .pyError ∧
    ∀ e : ODataErrorInfo, (Outcome.pyError : Outcome) ≠ .raisesProtocol e :=
  ⟨rfl, rfl, fun e h => by cases h⟩

/-- Claim C3 as amended: a failure-status response whose content-type does
not contain `application/json`, or whose body parses as JSON and carries
no `error` member, raises the `ODataError` with all three fields at their
sentinel values `None`, `Server did not supply any error messages`,
`None` (a content-type that claims JSON over an unparsable body instead
lets a raw JSON-decode error escape). -/
theorem claim_c3_amended (conn : Conn) (r : Response)
    (hf : isFailureStatus r.status_code)
    (h : strIn "application/json" (responseCT r) = false ∨
         ∃ d, r.json = some d ∧ pyIn "error" d = .ok false) :
    handle_odata_error r =
      .protocol (sentinelInfo ("HTTP " ++ toString r.status_code)) ∧
    (execute_get conn (.ok r)).1 =
      .raisesProtocol (sentinelInfo ("HTTP " ++ toString r.status_code)) := by
  have hmain : handle_odata_error r =
      .protocol (sentinelInfo ("HTTP " ++ toString r.status_code)) := by
    rw [handle_odata_error, if_pos hf]
    rcases h with hcf | ⟨d, hj, hin⟩
    · simp only [hcf, Bool.false_eq_true, if_false]
      rw [finishErr_str]; rfl
    · by_cases hct : strIn "application/json" (responseCT r) = true
      · simp only [hct, if_true, hj]
        simp only [handleErrordata, hin]
        rw [finishErr_str]; rfl
      · have hcf : strIn "application/json" (responseCT r) = false := by simpa using hct
        simp only [hcf, Bool.false_eq_true, if_false]
        rw [finishErr_str]; rfl
  exact ⟨hmain, by simp [execute_get, hmain]⟩

/-- Claim C3 witness: a concrete 400 response with no content-type header
and no JSON body yields the sentinel-filled error, whose display string is
`HTTP 400 | None | Server did not supply any error messages | None`. -/
theorem claim_c3_witness :
    isFailureStatus bareFailResp.status_code ∧
    strIn "application/json" (responseCT bareFailResp) = false ∧
    handle_odata_error bareFailResp =
      .protocol (sentinelInfo ("HTTP " ++ toString bareFailResp.status_code)) ∧
    (sentinelInfo ("HTTP " ++ toString bareFailResp.status_code)).msg =
      "HTTP 400 | None | Server did not supply any error messages | None" :=
  ⟨by decide, by rfl,
   (claim_c3_amended conn0 bareFailResp (by decide) (Or.inl (by rfl))).1,
   by rfl⟩

/-- Claim C1 counterexample: at a failure response whose content-type
claims `application/json` but whose body does not parse, `execute_get`
lets a raw JSON-decode error escape — the call neither returns a value nor
raises one of the three declared error kinds, refuting the invariant as
stated. -/
theorem claim_c1_counterexample :
    (execute_get conn0 (.ok badJsonFailResp)).1 = .pyError ∧
    ¬ claimedOutcome Outcome.pyError := by
  refine ⟨rfl, ?_⟩
  intro h
  rcases h with ⟨d, h⟩ | h | ⟨e, h⟩ | ⟨m, h⟩ | ⟨m, h⟩ <;> cases h

/-- Claim C1 as amended: every call to one of the four `execute_*` entry
points produces exactly one outcome — decoded JSON, no value, or exactly
one raised error among the structured protocol `ODataError`, the
unsupported-content-type `ODataError` and the transport
`ODataConnectionError` — provided that every received response whose
content-type contains `application/json` has a body that parses as JSON
and, on failure statuses, an error body of the shapes the handler expects
(`safeResponse`); outside that proviso a raw Python exception can escape.
Mutual exclusion of the outcomes is inherent: each call is a function into
the `Outcome` sum, as a Python call either returns or raises. -/
theorem claim_c1_amended (conn : Conn) (t : TransportResult)
    (hs : ∀ r, t = .ok r → safeResponse r = true) :
    claimedOutcome (execute_get conn t).1 ∧
    claimedOutcome (execute_post conn t).1 ∧
    claimedOutcome (execute_patch conn t).1 ∧
    claimedOutcome (execute_delete conn t).1 := by
  cases t with
  | exn m =>
    refine ⟨?_, ?_, ?_, ?_⟩ <;>
      exact Or.inr (Or.inr (Or.inr (Or.inr ⟨m, rfl⟩)))
  | ok r =>
    have hsafe := hs r rfl
    by_cases hf : isFailureStatus r.status_code
    · obtain ⟨e, he⟩ := handle_protocol r hf hsafe
      have hg : (execute_get conn (.ok r)).1 = .raisesProtocol e := by
        simp [execute_get, he]
      have hp : (execute_post conn (.ok r)).1 = .raisesProtocol e := by
        simp [execute_post, he]
      have hpa : (execute_patch conn (.ok r)).1 = .raisesProtocol e := by
        simp [execute_patch, he]
      have hd : (execute_delete conn (.ok r)).1 = .raisesProtocol e := by
        simp [execute_delete, he]
      exact ⟨Or.inr (Or.inr (Or.inl ⟨e, hg⟩)), Or.inr (Or.inr (Or.inl ⟨e, hp⟩)),
        Or.inr (Or.inr (Or.inl ⟨e, hpa⟩)), Or.inr (Or.inr (Or.inl ⟨e, hd⟩))⟩
    · have h0 := handle_ok r hf
      have hpa : (execute_patch conn (.ok r)).1 = .returns none := by
        simp [execute_patch, h0]
      have hd : (execute_delete conn (.ok r)).1 = .returns none := by
        simp [execute_delete, h0]
      by_cases h204 : (r.status_code == no_content) = true
      · have hg : (execute_get conn (.ok r)).1 = .returns none := by
          simp [execute_get, h0, h204]
        have hp : (execute_post conn (.ok r)).1 = .returns none := by
          simp [execute_post, h0, h204]
        exact ⟨Or.inr (Or.inl hg), Or.inr (Or.inl hp),
          Or.inr (Or.inl hpa), Or.inr (Or.inl hd)⟩
      · have hb : (r.status_code == no_content) = false := by simpa using h204
        by_cases hct : strIn "application/json" (responseCT r) = true
        · have hj : ∃ d, r.json = some d := by
            simp only [safeResponse, hct, if_true] at hsafe
            cases hjj : r.json with
            | none => rw [hjj] at hsafe; simp at hsafe
            | some d => exact ⟨d, rfl⟩
          obtain ⟨d, hjd⟩ := hj
          have hg : (execute_get conn (.ok r)).1 = .returns (some d) := by
            simp [execute_get, h0, hb, hct, hjd]
          have hp : (execute_post conn (.ok r)).1 = .returns (some d) := by
            simp [execute_post, h0, hb, hct, hjd]
          exact ⟨Or.inl ⟨d, hg⟩, Or.inl ⟨d, hp⟩,
            Or.inr (Or.inl hpa), Or.inr (Or.inl hd)⟩
        · have hcf : strIn "application/json" (responseCT r) = false := by
            simpa using hct
          have hg : (execute_get conn (.ok r)).1 =
              .raisesContentType ("Unsupported response Content-Type: " ++ responseCT r) := by
            simp [execute_get, h0, hb, hcf]
          have hp : (execute_post conn (.ok r)).1 = .returns none := by
            simp [execute_post, h0, hb, hcf]
          exact ⟨Or.inr (Or.inr (Or.inr (Or.inl ⟨_, hg⟩))), Or.inr (Or.inl hp),
            Or.inr (Or.inl hpa), Or.inr (Or.inl hd)⟩

/-- Claim C1 witness: at a concrete failure response with a well-formed
JSON error body, all four entry points land in the allowed outcome set. -/
theorem claim_c1_witness :
    safeResponse errScenarioResp = true ∧
    claimedOutcome (execute_get conn0 (.ok errScenarioResp)).1 ∧
    claimedOutcome (execute_post conn0 (.ok errScenarioResp)).1 ∧
    claimedOutcome (execute_patch conn0 (.ok errScenarioResp)).1 ∧
    claimedOutcome (execute_delete conn0 (.ok errScenarioResp)).1 :=
  have h := claim_c1_amended conn0 (.ok errScenarioResp)
    (fun r hr => by cases hr; rfl)
  ⟨rfl, h.1, h.2.1, h.2.2.1, h.2.2.2⟩

/-- Claim C5 counterexample: the error raised for an unsupported
content-type on a successful GET is constructed as `ODataError(msg)` — the
very same exception class the protocol-error path raises — so it is not
"an error type distinct from ProtocolError": at a concrete 200/text-html
response the raised class equals the class raised for a concrete failure
response. -/
theorem claim_c5_counterexample :
    (execute_get conn0 (.ok htmlResp)).1 =
      .raisesContentType "Unsupported response Content-Type: text/html" ∧
    ((execute_get conn0 (.ok htmlResp)).1).excClass =
      ((execute_get conn0 (.ok bareFailResp)).1).excClass := by
  constructor <;> rfl

/-- Claim C5 as amended: a successful (non-failure, non-no-content) GET
response whose content-type does not contain `application/json` raises an
error naming the offending content-type — in the code an `ODataError`, the
same exception class as the protocol error, distinguished only by its
raise site and message, not a distinct type (it is still distinct from the
`ODataConnectionError` used for transport failures). -/
theorem claim_c5_amended (conn : Conn) (r : Response)
    (hs : ¬ isFailureStatus r.status_code)
    (hnc : r.status_code ≠ no_content)
    (hct : strIn "application/json" (responseCT r) = false) :
    (execute_get conn (.ok r)).1 =
      .raisesContentType ("Unsupported response Content-Type: " ++ responseCT r) ∧
    ((execute_get conn (.ok r)).1).excClass = some PyExcClass.odataError ∧
    ((execute_get conn (.ok r)).1).excClass ≠ some PyExcClass.odataConnectionError := by
  have h0 := handle_ok r hs
  have hb : (r.status_code == no_content) = false := by simpa using hnc
  refine ⟨?_, ?_, ?_⟩
  · simp [execute_get, h0, hb, hct]
  · simp [execute_get, h0, hb, hct, Outcome.excClass]
  · simp [execute_get, h0, hb, hct, Outcome.excClass]

/-- Claim C5 witness: the amended claim at a concrete 200 response with
content-type `text/xml`. -/
theorem claim_c5_witness :
    ¬ isFailureStatus xmlResp.status_code ∧ xmlResp.status_code ≠ no_content ∧
    strIn "application/json" (responseCT xmlResp) = false ∧
    (execute_get conn0 (.ok xmlResp)).1 =
      .raisesContentType ("Unsupported response Content-Type: " ++ responseCT xmlResp) :=
  ⟨by decide, by decide, by rfl,
   (claim_c5_amended conn0 xmlResp (by decide) (by decide) (by rfl)).1⟩

/-- Claim C6: on a success-status GET/POST response, the no-content status
returns no value and raises nothing, and otherwise a content-type
containing `application/json` makes the call return exactly the parsed
JSON body, unmodified. -/
theorem claim_c6 (conn : Conn) (r : Response) (d : JVal)
    (hs : ¬ isFailureStatus r.status_code) :
    (r.status_code = no_content →
      (execute_get conn (.ok r)).1 = .returns none ∧
      (execute_post conn (.ok r)).1 = .returns none) ∧
    (r.status_code ≠ no_content →
      strIn "application/json" (responseCT r) = true →
      r.json = some d →
      (execute_get conn (.ok r)).1 = .returns (some d) ∧
      (execute_post conn (.ok r)).1 = .returns (some d)) := by
  have h0 := handle_ok r hs
  constructor
  · intro h204
    have hb : (r.status_code == no_content) = true := by simpa using h204
    exact ⟨by simp [execute_get, h0, hb], by simp [execute_post, h0, hb]⟩
  · intro hnc hct hj
    have hb : (r.status_code == no_content) = false := by simpa using hnc
    exact ⟨by simp [execute_get, h0, hb, hct, hj],
           by simp [execute_post, h0, hb, hct, hj]⟩

/-- Claim C6 witness: the spec's scenario — a 200 `application/json`
response with body `(value : [(id : 1)])` is returned as parsed, for GET
and POST. -/
theorem claim_c6_witness :
    ¬ isFailureStatus okJsonResp.status_code ∧
    (execute_get conn0 (.ok okJsonResp)).1 = .returns (some okJsonBody) ∧
    (execute_post conn0 (.ok okJsonResp)).1 = .returns (some okJsonBody) :=
  ⟨by decide,
   (claim_c6 conn0 okJsonResp okJsonBody (by decide)).2 (by decide) (by rfl) rfl⟩

/-- Claim C7: a success-status POST response with a non-JSON, non-empty
content-type returns no value and raises nothing; PATCH and DELETE return
no value on every success-status response without attempting to decode the
body (here the response's body does not even need to parse). -/
theorem claim_c7 (conn : Conn) (r : Response)
    (hs : ¬ isFailureStatus r.status_code) :
    (r.status_code ≠ no_content →
      strIn "application/json" (responseCT r) = false →
      responseCT r ≠ "" →
      (execute_post conn (.ok r)).1 = .returns none) ∧
    (execute_patch conn (.ok r)).1 = .returns none ∧
    (execute_delete conn (.ok r)).1 = .returns none := by
  have h0 := handle_ok r hs
  refine ⟨?_, by simp [execute_patch, h0], by simp [execute_delete, h0]⟩
  intro hnc hct _
  have hb : (r.status_code == no_content) = false := by simpa using hnc
  simp [execute_post, h0, hb, hct]

/-- Claim C7 witness: a concrete 200 `text/plain` response whose body does
not even parse as JSON — POST, PATCH and DELETE all return `None`. -/
theorem claim_c7_witness :
    ¬ isFailureStatus plainTextResp.status_code ∧
    (execute_post conn0 (.ok plainTextResp)).1 = .returns none ∧
    (execute_patch conn0 (.ok plainTextResp)).1 = .returns none ∧
    (execute_delete conn0 (.ok plainTextResp)).1 = .returns none :=
  have h := claim_c7 conn0 plainTextResp (by decide)
  ⟨by decide, h.1 (by decide) (by rfl) (by decide), h.2.1, h.2.2⟩

end PyOData
